import Mathlib

/-!
Verification of the host-metrics collector (package `metric` of stone-payments/bs).

The Go source is shallowly embedded:
* Go `float64` values that the program manipulates are modelled by `FVal`:
  an exact rational for finite values, plus NaN and the two infinities.
  The only operation that can leave the finite range here is division by
  zero, which `fdivQ` models with IEEE-754 semantics; finite arithmetic is
  modelled exactly (roundoff is abstracted away, all claim-relevant facts
  are about exact deltas and zero divisors).
* gopsutil's stat records (external collaborators, read at the interface
  boundary) become plain structures; `CPUTimesStat.total` models the
  cumulative `Total()` sum, with `other` absorbing the categories the
  collector does not individually report (nice, irq, softirq, guest, ...).
* Platform reads are an explicit `Env` of `Except`-valued results: one
  collection cycle reads each statistic once.
* The collector's mutable field `lastCPUStats` is threaded explicitly:
  the CPU producer returns the updated `HostClient`.
* The `bslog.Warnf` side channel is modelled as an accumulated list of
  warning messages.
-/

/-- Model of a Go `float64` as seen by this program: exact finite rationals
plus the IEEE-754 non-finite values. -/
inductive FVal where
  | fin : ℚ → FVal
  | nan : FVal
  | inf : FVal
  | neginf : FVal
deriving DecidableEq, Repr

/-- IEEE-754 division of two finite doubles: NaN for 0/0, signed infinity
for x/0 with x ≠ 0, and otherwise the exact quotient (rounding abstracted). -/
def fdivQ (a b : ℚ) : FVal :=
  if b = 0 then
    if a = 0 then FVal.nan else if 0 < a then FVal.inf else FVal.neginf
  else FVal.fin (a / b)

/-- IEEE-754 addition on the modelled doubles: NaN is absorbing,
Inf + (-Inf) is NaN, finite addition is exact. -/
def fadd : FVal → FVal → FVal
  | FVal.nan, _ => FVal.nan
  | _, FVal.nan => FVal.nan
  | FVal.inf, FVal.neginf => FVal.nan
  | FVal.neginf, FVal.inf => FVal.nan
  | FVal.inf, _ => FVal.inf
  | _, FVal.inf => FVal.inf
  | FVal.neginf, _ => FVal.neginf
  | _, FVal.neginf => FVal.neginf
  | FVal.fin a, FVal.fin b => FVal.fin (a + b)

/-- One producer's output: the Go `map[string]float` literal, kept in the
literal's key order as an association list. -/
abbrev Metric := List (String × FVal)

/-- gopsutil `cpu.CPUTimesStat` at the boundary used by the collector:
the five individually reported cumulative counters plus `other`, the sum
of the remaining categories (nice, irq, softirq, guest, ...). -/
structure CPUTimesStat where
  user : ℚ
  system : ℚ
  idle : ℚ
  stolen : ℚ
  iowait : ℚ
  other : ℚ
deriving DecidableEq, Repr

/-- gopsutil's `Total()`: the sum of every cumulative category. -/
def CPUTimesStat.total (s : CPUTimesStat) : ℚ :=
  s.user + s.system + s.idle + s.stolen + s.iowait + s.other

/-- gopsutil `load.LoadAvgStat` at the boundary. -/
structure LoadAvgStat where
  load1 : ℚ
  load5 : ℚ
  load15 : ℚ
deriving DecidableEq, Repr

/-- gopsutil `mem.VirtualMemoryStat` at the boundary (byte counters). -/
structure VirtualMemoryStat where
  total : ℚ
  used : ℚ
  free : ℚ
deriving DecidableEq, Repr

/-- gopsutil `mem.SwapMemoryStat` at the boundary (byte counters). -/
structure SwapMemoryStat where
  total : ℚ
  used : ℚ
  free : ℚ
deriving DecidableEq, Repr

/-- gopsutil `disk.DiskUsageStat` at the boundary (byte counters). -/
structure DiskUsageStat where
  total : ℚ
  used : ℚ
  free : ℚ
deriving DecidableEq, Repr

/-- gopsutil `net.NetIOCountersStat` at the boundary. -/
structure NetIOCountersStat where
  name : String
  bytesSent : ℚ
  bytesRecv : ℚ
deriving DecidableEq, Repr

/-- The error space of the collector: the internal `errInterfaceNotFound`
(which `GetHostMetrics` recognizes by type assertion) versus any other
error propagated verbatim from a platform read. -/
inductive MErr where
  | interfaceNotFound : String → MErr
  | platform : String → MErr
deriving DecidableEq, Repr

/-- The `HostClient` struct: configured interface name and the retained
previous CPU sample (`nil` pointer modelled as `none`). -/
structure HostClient where
  ifaceName : String
  lastCPUStats : Option CPUTimesStat
deriving DecidableEq, Repr

/-- The platform reads available to one collection cycle, each either a
statistic or a platform read error. `cpuTimes` is `cpu.CPUTimes(false)[0]`,
the single aggregate entry. -/
structure Env where
  loadAvg : Except String LoadAvgStat
  virtualMemory : Except String VirtualMemoryStat
  swapMemory : Except String SwapMemoryStat
  diskUsage : Except String DiskUsageStat
  uptime : Except String ℚ
  cpuTimes : Except String CPUTimesStat
  netIOCounters : Except String (List NetIOCountersStat)

/-- Modelled from the spec: `config.StringEnvOrDefault` (package
`github.com/tsuru/bs/config`, not under src/) returns the configured
environment value, or the default when the variable is unset/empty —
"an optional network-interface name (default eth0)". -/
def stringEnvOrDefault (d : String) (envValue : String) : String :=
  if envValue = "" then d else envValue

/-- `NewHostClient`: fails when `HOST_PROC` is unset (Go's `os.Getenv`
yields `""` for an unset variable), otherwise builds the client with the
configured or default interface name and no retained CPU sample. -/
def NewHostClient (hostProc : String) (metricsNetworkInterface : String) :
    Except String HostClient :=
  if hostProc = "" then
    Except.error "HOST_PROC must be set to be able to send host metrics"
  else
    Except.ok ⟨stringEnvOrDefault "eth0" metricsNetworkInterface, none⟩

/-- The map literal of `getHostLoad`. -/
def loadStats (loadStat : LoadAvgStat) : Metric :=
  [("load1", FVal.fin loadStat.load1),
   ("load5", FVal.fin loadStat.load5),
   ("load15", FVal.fin loadStat.load15)]

/-- `getHostLoad`: read the load average, propagate failure verbatim. -/
def getHostLoad (env : Env) : Except MErr Metric :=
  match env.loadAvg with
  | Except.error e => Except.error (MErr.platform e)
  | Except.ok loadStat => Except.ok (loadStats loadStat)

/-- The map literal of `getHostMem`. -/
def memStats (memStat : VirtualMemoryStat) : Metric :=
  [("mem_total", FVal.fin memStat.total),
   ("mem_used", FVal.fin memStat.used),
   ("mem_free", FVal.fin memStat.free)]

/-- `getHostMem`: read virtual memory, propagate failure verbatim. -/
def getHostMem (env : Env) : Except MErr Metric :=
  match env.virtualMemory with
  | Except.error e => Except.error (MErr.platform e)
  | Except.ok memStat => Except.ok (memStats memStat)

/-- The map literal of `getHostSwap`. -/
def swapStats (swap : SwapMemoryStat) : Metric :=
  [("swap_total", FVal.fin swap.total),
   ("swap_used", FVal.fin swap.used),
   ("swap_free", FVal.fin swap.free)]

/-- `getHostSwap`: read swap memory, propagate failure verbatim. -/
def getHostSwap (env : Env) : Except MErr Metric :=
  match env.swapMemory with
  | Except.error e => Except.error (MErr.platform e)
  | Except.ok swap => Except.ok (swapStats swap)

/-- The map literal of `getHostFileSystemUsage`. -/
def diskStats (diskStat : DiskUsageStat) : Metric :=
  [("disk_total", FVal.fin diskStat.total),
   ("disk_used", FVal.fin diskStat.used),
   ("disk_free", FVal.fin diskStat.free)]

/-- `getHostFileSystemUsage`: disk usage of the root mount, propagate
failure verbatim. -/
def getHostFileSystemUsage (env : Env) : Except MErr Metric :=
  match env.diskUsage with
  | Except.error e => Except.error (MErr.platform e)
  | Except.ok diskStat => Except.ok (diskStats diskStat)

/-- The map literal of `getHostUptime`. -/
def uptimeStats (uptime : ℚ) : Metric :=
  [("uptime", FVal.fin uptime)]

/-- `getHostUptime`: read the uptime, propagate failure verbatim. -/
def getHostUptime (env : Env) : Except MErr Metric :=
  match env.uptime with
  | Except.error e => Except.error (MErr.platform e)
  | Except.ok uptime => Except.ok (uptimeStats uptime)

/-- The map literal of `calculateCpuPercent`: six keys, with
`cpu_busy = float(user + sys)`. -/
def cpuStatsMap (user sys idle stolen wait : FVal) : Metric :=
  [("cpu_user", user),
   ("cpu_sys", sys),
   ("cpu_idle", idle),
   ("cpu_stolen", stolen),
   ("cpu_wait", wait),
   ("cpu_busy", fadd user sys)]

/-- `calculateCpuPercent`: the five category variables start at the Go
zero value 0.0 and are only assigned when a prior sample exists; in that
case each is the category delta divided by `deltaTotal`, with NO guard
against `deltaTotal = 0` (the division is performed unconditionally,
exactly as in the source). -/
def calculateCpuPercent (lastCPUStats : Option CPUTimesStat)
    (currentCpuStats : CPUTimesStat) : Metric :=
  match lastCPUStats with
  | none =>
      cpuStatsMap (FVal.fin 0) (FVal.fin 0) (FVal.fin 0) (FVal.fin 0) (FVal.fin 0)
  | some last =>
      cpuStatsMap
        (fdivQ (currentCpuStats.user - last.user)
          (currentCpuStats.total - last.total))
        (fdivQ (currentCpuStats.system - last.system)
          (currentCpuStats.total - last.total))
        (fdivQ (currentCpuStats.idle - last.idle)
          (currentCpuStats.total - last.total))
        (fdivQ (currentCpuStats.stolen - last.stolen)
          (currentCpuStats.total - last.total))
        (fdivQ (currentCpuStats.iowait - last.iowait)
          (currentCpuStats.total - last.total))

/-- `getHostCpuTimes`: read the aggregate CPU times, compute the
percentages against the retained sample, then unconditionally overwrite
`lastCPUStats` with the sample just read. -/
def getHostCpuTimes (h : HostClient) (env : Env) :
    Except MErr (Metric × HostClient) :=
  match env.cpuTimes with
  | Except.error e => Except.error (MErr.platform e)
  | Except.ok cpuStats =>
      Except.ok (calculateCpuPercent h.lastCPUStats cpuStats,
        ⟨h.ifaceName, some cpuStats⟩)

/-- The map literal of `getHostNetworkUsage`. -/
def netStats (netInterface : NetIOCountersStat) : Metric :=
  [("netrx", FVal.fin netInterface.bytesRecv),
   ("nettx", FVal.fin netInterface.bytesSent)]

/-- The `for` loop of `getHostNetworkUsage`: return the counters of the
first interface whose name matches, else `errInterfaceNotFound`. -/
def findIfaceStats (ifaceName : String) :
    List NetIOCountersStat → Except MErr Metric
  | [] => Except.error (MErr.interfaceNotFound ifaceName)
  | netInterface :: rest =>
      if netInterface.name = ifaceName then Except.ok (netStats netInterface)
      else findIfaceStats ifaceName rest

/-- `getHostNetworkUsage`: read the per-interface counters, propagate a
read failure verbatim, else scan for the configured interface. -/
def getHostNetworkUsage (h : HostClient) (env : Env) : Except MErr Metric :=
  match env.netIOCounters with
  | Except.error e => Except.error (MErr.platform e)
  | Except.ok netStat => findIfaceStats h.ifaceName netStat

/-- A metric producer as an element of the `collectors` slice: it may
update the client state (only the CPU producer does). -/
abbrev Collector := HostClient → Env → Except MErr (Metric × HostClient)

/-- The `collectors` slice of `GetHostMetrics`, in source order. The
stateless producers return the client unchanged. -/
def collectorsList : List Collector :=
  [fun h env => Except.map (fun m => (m, h)) (getHostLoad env),
   fun h env => Except.map (fun m => (m, h)) (getHostMem env),
   fun h env => Except.map (fun m => (m, h)) (getHostSwap env),
   fun h env => Except.map (fun m => (m, h)) (getHostFileSystemUsage env),
   fun h env => Except.map (fun m => (m, h)) (getHostUptime env),
   getHostCpuTimes,
   fun h env => Except.map (fun m => (m, h)) (getHostNetworkUsage h env)]

/-- The warning `bslog.Warnf("Skipping network metrics: %s", err)` with
`errInterfaceNotFound.Error()` formatted in. -/
def skipWarning (name : String) : String :=
  "Skipping network metrics: interface " ++ name ++ " not found"

/-- The loop body of `GetHostMetrics`: on `errInterfaceNotFound` log a
warning and continue; on any other error return it at once with no
metrics; on success append the metric and keep going. -/
def runCollectors (env : Env) :
    List Collector → HostClient → List Metric → List String →
    Except MErr (List Metric) × HostClient × List String
  | [], h, metrics, warns => (Except.ok metrics, h, warns)
  | c :: rest, h, metrics, warns =>
      match c h env with
      | Except.error (MErr.interfaceNotFound n) =>
          runCollectors env rest h metrics (warns ++ [skipWarning n])
      | Except.error (MErr.platform e) =>
          (Except.error (MErr.platform e), h, warns)
      | Except.ok (metric, h2) =>
          runCollectors env rest h2 (metrics ++ [metric]) warns

/-- `GetHostMetrics`: run the seven producers in order over the cycle's
platform reads; also returns the final client state and the warnings
emitted on the logging side channel. -/
def GetHostMetrics (h : HostClient) (env : Env) :
    Except MErr (List Metric) × HostClient × List String :=
  runCollectors env collectorsList h [] []

/-- On two samples with equal totals the source divides by zero: every
category delta of 0 over `deltaTotal = 0` is NaN. This evaluates the code
at a concrete degenerate input (previous sample retained, current sample
identical): all six outputs are NaN, not 0. -/
theorem c1_degenerate_delta_nan :
    calculateCpuPercent (some ⟨1, 1, 1, 0, 0, 0⟩) ⟨1, 1, 1, 0, 0, 0⟩ =
      [("cpu_user", FVal.nan), ("cpu_sys", FVal.nan), ("cpu_idle", FVal.nan),
       ("cpu_stolen", FVal.nan), ("cpu_wait", FVal.nan),
       ("cpu_busy", FVal.nan)] := by
  norm_num [calculateCpuPercent, cpuStatsMap, fdivQ, fadd, CPUTimesStat.total]

/-- C2: with a prior sample retained and `deltaTotal ≠ 0`, each of the
five base outputs is the category delta divided by `deltaTotal`, and
`cpu_busy` is the sum of the `cpu_user` and `cpu_sys` values. -/
theorem c2_delta_correctness (prev curr : CPUTimesStat)
    (h : curr.total - prev.total ≠ 0) :
    calculateCpuPercent (some prev) curr =
      [("cpu_user", FVal.fin ((curr.user - prev.user) / (curr.total - prev.total))),
       ("cpu_sys", FVal.fin ((curr.system - prev.system) / (curr.total - prev.total))),
       ("cpu_idle", FVal.fin ((curr.idle - prev.idle) / (curr.total - prev.total))),
       ("cpu_stolen", FVal.fin ((curr.stolen - prev.stolen) / (curr.total - prev.total))),
       ("cpu_wait", FVal.fin ((curr.iowait - prev.iowait) / (curr.total - prev.total))),
       ("cpu_busy", FVal.fin ((curr.user - prev.user) / (curr.total - prev.total) +
          (curr.system - prev.system) / (curr.total - prev.total)))] := by
  simp [calculateCpuPercent, cpuStatsMap, fdivQ, fadd, h]

/-- C2 witness: the spec's P2 instance — previous
{user=100, sys=50, idle=800, steal=0, wait=50} (total 1000) and current
{user=150, sys=70, idle=1020, steal=0, wait=60} (total 1300) give
50/300, 20/300, 220/300, 0, 10/300 and busy 70/300. -/
theorem c2_delta_correctness_witness :
    (CPUTimesStat.total ⟨150, 70, 1020, 0, 60, 0⟩ -
        CPUTimesStat.total ⟨100, 50, 800, 0, 50, 0⟩ ≠ 0) ∧
    calculateCpuPercent (some ⟨100, 50, 800, 0, 50, 0⟩) ⟨150, 70, 1020, 0, 60, 0⟩ =
      [("cpu_user", FVal.fin (50 / 300)), ("cpu_sys", FVal.fin (20 / 300)),
       ("cpu_idle", FVal.fin (220 / 300)), ("cpu_stolen", FVal.fin 0),
       ("cpu_wait", FVal.fin (10 / 300)), ("cpu_busy", FVal.fin (70 / 300))] :=
  ⟨by norm_num [CPUTimesStat.total],
   (c2_delta_correctness ⟨100, 50, 800, 0, 50, 0⟩ ⟨150, 70, 1020, 0, 60, 0⟩
      (by norm_num [CPUTimesStat.total])).trans
     (by norm_num [CPUTimesStat.total])⟩

/-- C3: on a freshly constructed client (so `lastCPUStats = none`), a
successful CPU read yields all six CPU keys equal to 0, whatever the
current sample's values. -/
theorem c3_cold_start (proc iface : String) (h : HostClient) (env : Env)
    (s : CPUTimesStat) (hcons : NewHostClient proc iface = Except.ok h)
    (hs : env.cpuTimes = Except.ok s) :
    getHostCpuTimes h env =
      Except.ok ([("cpu_user", FVal.fin 0), ("cpu_sys", FVal.fin 0),
        ("cpu_idle", FVal.fin 0), ("cpu_stolen", FVal.fin 0),
        ("cpu_wait", FVal.fin 0), ("cpu_busy", FVal.fin 0)],
        ⟨h.ifaceName, some s⟩) := by
  have hnone : h.lastCPUStats = none := by
    unfold NewHostClient at hcons
    split at hcons
    · cases hcons
    · cases hcons
      rfl
  simp [getHostCpuTimes, hs, calculateCpuPercent, hnone, cpuStatsMap, fadd]

/-- C3 witness: a concrete fresh client and a nonzero current sample. -/
theorem c3_cold_start_witness :
    getHostCpuTimes ⟨"eth0", none⟩
      ⟨Except.error "", Except.error "", Except.error "", Except.error "",
       Except.error "", Except.ok ⟨5, 6, 7, 8, 9, 10⟩, Except.error ""⟩ =
      Except.ok ([("cpu_user", FVal.fin 0), ("cpu_sys", FVal.fin 0),
        ("cpu_idle", FVal.fin 0), ("cpu_stolen", FVal.fin 0),
        ("cpu_wait", FVal.fin 0), ("cpu_busy", FVal.fin 0)],
        ⟨"eth0", some ⟨5, 6, 7, 8, 9, 10⟩⟩) :=
  c3_cold_start "/prochost" "" ⟨"eth0", none⟩
    ⟨Except.error "", Except.error "", Except.error "", Except.error "",
     Except.error "", Except.ok ⟨5, 6, 7, 8, 9, 10⟩, Except.error ""⟩
    ⟨5, 6, 7, 8, 9, 10⟩ (by simp [NewHostClient, stringEnvOrDefault]) rfl

/-- C4: whenever the platform CPU read succeeds, the CPU producer
overwrites the retained sample with the sample just read, whatever the
prior state and whatever the computed metric. -/
theorem c4_state_update (h : HostClient) (env : Env) (s : CPUTimesStat)
    (hs : env.cpuTimes = Except.ok s) :
    getHostCpuTimes h env =
      Except.ok (calculateCpuPercent h.lastCPUStats s,
        ⟨h.ifaceName, some s⟩) := by
  simp [getHostCpuTimes, hs]

/-- C4 witness: a client that already retains a sample has it replaced by
the just-read sample. -/
theorem c4_state_update_witness :
    getHostCpuTimes ⟨"eth0", some ⟨1, 1, 1, 0, 0, 0⟩⟩
      ⟨Except.error "", Except.error "", Except.error "", Except.error "",
       Except.error "", Except.ok ⟨2, 2, 2, 0, 0, 0⟩, Except.error ""⟩ =
      Except.ok ([("cpu_user", FVal.fin (1 / 3)), ("cpu_sys", FVal.fin (1 / 3)),
        ("cpu_idle", FVal.fin (1 / 3)), ("cpu_stolen", FVal.fin 0),
        ("cpu_wait", FVal.fin 0), ("cpu_busy", FVal.fin (2 / 3))],
        ⟨"eth0", some ⟨2, 2, 2, 0, 0, 0⟩⟩) :=
  (c4_state_update ⟨"eth0", some ⟨1, 1, 1, 0, 0, 0⟩⟩
    ⟨Except.error "", Except.error "", Except.error "", Except.error "",
     Except.error "", Except.ok ⟨2, 2, 2, 0, 0, 0⟩, Except.error ""⟩
    ⟨2, 2, 2, 0, 0, 0⟩ rfl).trans
    (by norm_num [calculateCpuPercent, cpuStatsMap, fdivQ, fadd,
      CPUTimesStat.total])

/-- Scan helper: when no interface in the list matches, the loop falls
through to `errInterfaceNotFound`. -/
theorem findIfaceStats_not_found (nm : String) (l : List NetIOCountersStat)
    (hne : ∀ j ∈ l, j.name ≠ nm) :
    findIfaceStats nm l = Except.error (MErr.interfaceNotFound nm) := by
  induction l with
  | nil => rfl
  | cons a t ih =>
      have ha : a.name ≠ nm := hne a (List.mem_cons_self a t)
      simp only [findIfaceStats, if_neg ha]
      exact ih fun j hj => hne j (List.mem_cons_of_mem a hj)

/-- Scan helper: the not-found error is only produced when no interface
in the list matches. -/
theorem findIfaceStats_error_imp (nm : String) (l : List NetIOCountersStat)
    (he : findIfaceStats nm l = Except.error (MErr.interfaceNotFound nm)) :
    ∀ j ∈ l, j.name ≠ nm := by
  induction l with
  | nil => intro j hj; cases hj
  | cons a t ih =>
      by_cases ha : a.name = nm
      · simp [findIfaceStats, if_pos ha] at he
      · simp only [findIfaceStats, if_neg ha] at he
        intro j hj
        rcases List.mem_cons.mp hj with h1 | h2
        · exact h1 ▸ ha
        · exact ih he j h2

/-- Scan helper: the loop returns the counters of the first matching
interface, whatever comes after it. -/
theorem findIfaceStats_prefix (nm : String) (pre : List NetIOCountersStat)
    (i : NetIOCountersStat) (post : List NetIOCountersStat)
    (hpre : ∀ j ∈ pre, j.name ≠ nm) (hi : i.name = nm) :
    findIfaceStats nm (pre ++ i :: post) = Except.ok (netStats i) := by
  induction pre with
  | nil => simp only [List.nil_append, findIfaceStats, if_pos hi]
  | cons a t ih =>
      have ha : a.name ≠ nm := hpre a (List.mem_cons_self a t)
      simp only [List.cons_append, findIfaceStats, if_neg ha]
      exact ih fun j hj => hpre j (List.mem_cons_of_mem a hj)

/-- Scan helper: any successful scan result carries exactly the two
network keys. -/
theorem findIfaceStats_ok_keys (nm : String) (l : List NetIOCountersStat)
    (m : Metric) (hm : findIfaceStats nm l = Except.ok m) :
    m.map Prod.fst = ["netrx", "nettx"] := by
  induction l with
  | nil => cases hm
  | cons a t ih =>
      by_cases ha : a.name = nm
      · simp only [findIfaceStats, if_pos ha, Except.ok.injEq] at hm
        subst hm
        simp [netStats]
      · simp only [findIfaceStats, if_neg ha] at hm
        exact ih hm

/-- The CPU map has the same six keys in both branches. -/
theorem calculateCpuPercent_keys (last : Option CPUTimesStat)
    (cur : CPUTimesStat) :
    (calculateCpuPercent last cur).map Prod.fst =
      ["cpu_user", "cpu_sys", "cpu_idle", "cpu_stolen", "cpu_wait",
       "cpu_busy"] := by
  cases last <;> simp [calculateCpuPercent, cpuStatsMap]

/-- C5: when every read succeeds but no interface matches the configured
name, the cycle still succeeds, the output holds the six other producers'
mappings with no network entry at all, and exactly one warning is
emitted. -/
theorem c5_interface_skip (h : HostClient) (env : Env) (la : LoadAvgStat)
    (vm : VirtualMemoryStat) (sm : SwapMemoryStat) (du : DiskUsageStat)
    (up : ℚ) (cs : CPUTimesStat) (ns : List NetIOCountersStat)
    (h1 : env.loadAvg = Except.ok la)
    (h2 : env.virtualMemory = Except.ok vm)
    (h3 : env.swapMemory = Except.ok sm)
    (h4 : env.diskUsage = Except.ok du)
    (h5 : env.uptime = Except.ok up)
    (h6 : env.cpuTimes = Except.ok cs)
    (h7 : env.netIOCounters = Except.ok ns)
    (h8 : ∀ j ∈ ns, j.name ≠ h.ifaceName) :
    GetHostMetrics h env =
      (Except.ok [loadStats la, memStats vm, swapStats sm, diskStats du,
        uptimeStats up, calculateCpuPercent h.lastCPUStats cs],
       ⟨h.ifaceName, some cs⟩, [skipWarning h.ifaceName]) := by
  have hnet : findIfaceStats h.ifaceName ns =
      Except.error (MErr.interfaceNotFound h.ifaceName) :=
    findIfaceStats_not_found _ _ h8
  simp [GetHostMetrics, collectorsList, runCollectors, getHostLoad,
    getHostMem, getHostSwap, getHostFileSystemUsage, getHostUptime,
    getHostCpuTimes, getHostNetworkUsage, Except.map, h1, h2, h3, h4, h5,
    h6, h7, hnet]

/-- C5 witness: a single non-matching interface; the network mapping is
absent and one warning is emitted. -/
theorem c5_interface_skip_witness :
    GetHostMetrics ⟨"eth0", none⟩
      ⟨Except.ok ⟨1, 2, 3⟩, Except.ok ⟨4, 5, 6⟩, Except.ok ⟨7, 8, 9⟩,
       Except.ok ⟨10, 11, 12⟩, Except.ok 13, Except.ok ⟨1, 1, 1, 0, 0, 0⟩,
       Except.ok [⟨"lo", 1, 2⟩]⟩ =
      (Except.ok [loadStats ⟨1, 2, 3⟩, memStats ⟨4, 5, 6⟩,
        swapStats ⟨7, 8, 9⟩, diskStats ⟨10, 11, 12⟩, uptimeStats 13,
        calculateCpuPercent none ⟨1, 1, 1, 0, 0, 0⟩],
       ⟨"eth0", some ⟨1, 1, 1, 0, 0, 0⟩⟩, [skipWarning "eth0"]) :=
  c5_interface_skip ⟨"eth0", none⟩
    ⟨Except.ok ⟨1, 2, 3⟩, Except.ok ⟨4, 5, 6⟩, Except.ok ⟨7, 8, 9⟩,
     Except.ok ⟨10, 11, 12⟩, Except.ok 13, Except.ok ⟨1, 1, 1, 0, 0, 0⟩,
     Except.ok [⟨"lo", 1, 2⟩]⟩
    ⟨1, 2, 3⟩ ⟨4, 5, 6⟩ ⟨7, 8, 9⟩ ⟨10, 11, 12⟩ 13 ⟨1, 1, 1, 0, 0, 0⟩
    [⟨"lo", 1, 2⟩] rfl rfl rfl rfl rfl rfl rfl (by simp)

/-- C6: a producer failure other than `errInterfaceNotFound` aborts the
cycle at that producer: the platform error is returned verbatim, no
metrics at all are returned, no warning is emitted, and the client state
reflects only the producers that ran before the failure. One conjunct per
producer, each assuming the producers before it succeed. -/
theorem c6_fail_fast (h : HostClient) (env : Env) (e : String) :
    (env.loadAvg = Except.error e →
      GetHostMetrics h env = (Except.error (MErr.platform e), h, [])) ∧
    (∀ la : LoadAvgStat, env.loadAvg = Except.ok la →
      env.virtualMemory = Except.error e →
      GetHostMetrics h env = (Except.error (MErr.platform e), h, [])) ∧
    (∀ (la : LoadAvgStat) (vm : VirtualMemoryStat),
      env.loadAvg = Except.ok la → env.virtualMemory = Except.ok vm →
      env.swapMemory = Except.error e →
      GetHostMetrics h env = (Except.error (MErr.platform e), h, [])) ∧
    (∀ (la : LoadAvgStat) (vm : VirtualMemoryStat) (sm : SwapMemoryStat),
      env.loadAvg = Except.ok la → env.virtualMemory = Except.ok vm →
      env.swapMemory = Except.ok sm → env.diskUsage = Except.error e →
      GetHostMetrics h env = (Except.error (MErr.platform e), h, [])) ∧
    (∀ (la : LoadAvgStat) (vm : VirtualMemoryStat) (sm : SwapMemoryStat)
      (du : DiskUsageStat),
      env.loadAvg = Except.ok la → env.virtualMemory = Except.ok vm →
      env.swapMemory = Except.ok sm → env.diskUsage = Except.ok du →
      env.uptime = Except.error e →
      GetHostMetrics h env = (Except.error (MErr.platform e), h, [])) ∧
    (∀ (la : LoadAvgStat) (vm : VirtualMemoryStat) (sm : SwapMemoryStat)
      (du : DiskUsageStat) (up : ℚ),
      env.loadAvg = Except.ok la → env.virtualMemory = Except.ok vm →
      env.swapMemory = Except.ok sm → env.diskUsage = Except.ok du →
      env.uptime = Except.ok up → env.cpuTimes = Except.error e →
      GetHostMetrics h env = (Except.error (MErr.platform e), h, [])) ∧
    (∀ (la : LoadAvgStat) (vm : VirtualMemoryStat) (sm : SwapMemoryStat)
      (du : DiskUsageStat) (up : ℚ) (cs : CPUTimesStat),
      env.loadAvg = Except.ok la → env.virtualMemory = Except.ok vm →
      env.swapMemory = Except.ok sm → env.diskUsage = Except.ok du →
      env.uptime = Except.ok up → env.cpuTimes = Except.ok cs →
      env.netIOCounters = Except.error e →
      GetHostMetrics h env = (Except.error (MErr.platform e),
        ⟨h.ifaceName, some cs⟩, [])) := by
  refine ⟨?_, ?_, ?_, ?_, ?_, ?_, ?_⟩
  · intro h1
    simp [GetHostMetrics, collectorsList, runCollectors, getHostLoad,
      Except.map, h1]
  · intro la h1 h2
    simp [GetHostMetrics, collectorsList, runCollectors, getHostLoad,
      getHostMem, Except.map, h1, h2]
  · intro la vm h1 h2 h3
    simp [GetHostMetrics, collectorsList, runCollectors, getHostLoad,
      getHostMem, getHostSwap, Except.map, h1, h2, h3]
  · intro la vm sm h1 h2 h3 h4
    simp [GetHostMetrics, collectorsList, runCollectors, getHostLoad,
      getHostMem, getHostSwap, getHostFileSystemUsage, Except.map,
      h1, h2, h3, h4]
  · intro la vm sm du h1 h2 h3 h4 h5
    simp [GetHostMetrics, collectorsList, runCollectors, getHostLoad,
      getHostMem, getHostSwap, getHostFileSystemUsage, getHostUptime,
      Except.map, h1, h2, h3, h4, h5]
  · intro la vm sm du up h1 h2 h3 h4 h5 h6
    simp [GetHostMetrics, collectorsList, runCollectors, getHostLoad,
      getHostMem, getHostSwap, getHostFileSystemUsage, getHostUptime,
      getHostCpuTimes, Except.map, h1, h2, h3, h4, h5, h6]
  · intro la vm sm du up cs h1 h2 h3 h4 h5 h6 h7
    simp [GetHostMetrics, collectorsList, runCollectors, getHostLoad,
      getHostMem, getHostSwap, getHostFileSystemUsage, getHostUptime,
      getHostCpuTimes, getHostNetworkUsage, Except.map,
      h1, h2, h3, h4, h5, h6, h7]

/-- C6 witness: the spec's P6 instance — the load read succeeds, the
memory read fails, and the cycle returns only that error. -/
theorem c6_fail_fast_witness :
    GetHostMetrics ⟨"eth0", none⟩
      ⟨Except.ok ⟨1, 2, 3⟩, Except.error "mem read failed",
       Except.error "", Except.error "", Except.error "", Except.error "",
       Except.error ""⟩ =
      (Except.error (MErr.platform "mem read failed"), ⟨"eth0", none⟩, []) :=
  (c6_fail_fast ⟨"eth0", none⟩
    ⟨Except.ok ⟨1, 2, 3⟩, Except.error "mem read failed",
     Except.error "", Except.error "", Except.error "", Except.error "",
     Except.error ""⟩ "mem read failed").2.1 ⟨1, 2, 3⟩ rfl rfl

/-- C7: construction fails with the configuration error exactly when the
process-info root is unset, and otherwise succeeds — touching no platform
state (the constructor takes no platform reads at all) — with the
interface name defaulting to eth0 when none is configured. -/
theorem c7_construction (hostProc iface : String) :
    (hostProc = "" → NewHostClient hostProc iface =
      Except.error "HOST_PROC must be set to be able to send host metrics") ∧
    (hostProc ≠ "" → iface = "" →
      NewHostClient hostProc iface = Except.ok ⟨"eth0", none⟩) ∧
    (hostProc ≠ "" → iface ≠ "" →
      NewHostClient hostProc iface = Except.ok ⟨iface, none⟩) := by
  refine ⟨fun hp => ?_, fun hp hi => ?_, fun hp hi => ?_⟩
  · simp [NewHostClient, hp]
  · simp [NewHostClient, stringEnvOrDefault, hp, hi]
  · simp [NewHostClient, stringEnvOrDefault, hp, hi]

/-- C7 witness: unset root fails; set root with no configured interface
yields the eth0 default; a configured interface is kept. -/
theorem c7_construction_witness :
    NewHostClient "" "wlan0" =
      Except.error "HOST_PROC must be set to be able to send host metrics" ∧
    NewHostClient "/prochost" "" = Except.ok ⟨"eth0", none⟩ ∧
    NewHostClient "/prochost" "wlan0" = Except.ok ⟨"wlan0", none⟩ :=
  ⟨(c7_construction "" "wlan0").1 rfl,
   (c7_construction "/prochost" "").2.1 (by simp) rfl,
   (c7_construction "/prochost" "wlan0").2.2 (by simp) (by simp)⟩

/-- C8: when all seven producers succeed, the output sequence is exactly
their seven mappings in the fixed order load, memory, swap, filesystem,
uptime, CPU, network. -/
theorem c8_fixed_order (h : HostClient) (env : Env) (la : LoadAvgStat)
    (vm : VirtualMemoryStat) (sm : SwapMemoryStat) (du : DiskUsageStat)
    (up : ℚ) (cs : CPUTimesStat) (ns : List NetIOCountersStat) (nm : Metric)
    (h1 : env.loadAvg = Except.ok la)
    (h2 : env.virtualMemory = Except.ok vm)
    (h3 : env.swapMemory = Except.ok sm)
    (h4 : env.diskUsage = Except.ok du)
    (h5 : env.uptime = Except.ok up)
    (h6 : env.cpuTimes = Except.ok cs)
    (h7 : env.netIOCounters = Except.ok ns)
    (h8 : findIfaceStats h.ifaceName ns = Except.ok nm) :
    GetHostMetrics h env =
      (Except.ok [loadStats la, memStats vm, swapStats sm, diskStats du,
        uptimeStats up, calculateCpuPercent h.lastCPUStats cs, nm],
       ⟨h.ifaceName, some cs⟩, []) := by
  simp [GetHostMetrics, collectorsList, runCollectors, getHostLoad,
    getHostMem, getHostSwap, getHostFileSystemUsage, getHostUptime,
    getHostCpuTimes, getHostNetworkUsage, Except.map, h1, h2, h3, h4, h5,
    h6, h7, h8]

/-- C8 witness: a fully successful cycle with a single matching
interface; the seven mappings appear in producer order. -/
theorem c8_fixed_order_witness :
    GetHostMetrics ⟨"eth0", none⟩
      ⟨Except.ok ⟨1, 2, 3⟩, Except.ok ⟨4, 5, 6⟩, Except.ok ⟨7, 8, 9⟩,
       Except.ok ⟨10, 11, 12⟩, Except.ok 13, Except.ok ⟨1, 1, 1, 0, 0, 0⟩,
       Except.ok [⟨"eth0", 100, 200⟩]⟩ =
      (Except.ok [loadStats ⟨1, 2, 3⟩, memStats ⟨4, 5, 6⟩,
        swapStats ⟨7, 8, 9⟩, diskStats ⟨10, 11, 12⟩, uptimeStats 13,
        calculateCpuPercent none ⟨1, 1, 1, 0, 0, 0⟩,
        [("netrx", FVal.fin 200), ("nettx", FVal.fin 100)]],
       ⟨"eth0", some ⟨1, 1, 1, 0, 0, 0⟩⟩, []) :=
  c8_fixed_order ⟨"eth0", none⟩
    ⟨Except.ok ⟨1, 2, 3⟩, Except.ok ⟨4, 5, 6⟩, Except.ok ⟨7, 8, 9⟩,
     Except.ok ⟨10, 11, 12⟩, Except.ok 13, Except.ok ⟨1, 1, 1, 0, 0, 0⟩,
     Except.ok [⟨"eth0", 100, 200⟩]⟩
    ⟨1, 2, 3⟩ ⟨4, 5, 6⟩ ⟨7, 8, 9⟩ ⟨10, 11, 12⟩ 13 ⟨1, 1, 1, 0, 0, 0⟩
    [⟨"eth0", 100, 200⟩] [("netrx", FVal.fin 200), ("nettx", FVal.fin 100)]
    rfl rfl rfl rfl rfl rfl rfl (by simp [findIfaceStats, netStats])

/-- C9: every producer's successful output carries exactly its documented
keys, whatever the client state and whatever the platform reads return. -/
theorem c9_key_stability (h : HostClient) (env : Env) :
    (∀ m, getHostLoad env = Except.ok m →
      m.map Prod.fst = ["load1", "load5", "load15"]) ∧
    (∀ m, getHostMem env = Except.ok m →
      m.map Prod.fst = ["mem_total", "mem_used", "mem_free"]) ∧
    (∀ m, getHostSwap env = Except.ok m →
      m.map Prod.fst = ["swap_total", "swap_used", "swap_free"]) ∧
    (∀ m, getHostFileSystemUsage env = Except.ok m →
      m.map Prod.fst = ["disk_total", "disk_used", "disk_free"]) ∧
    (∀ m, getHostUptime env = Except.ok m → m.map Prod.fst = ["uptime"]) ∧
    (∀ m h2, getHostCpuTimes h env = Except.ok (m, h2) →
      m.map Prod.fst = ["cpu_user", "cpu_sys", "cpu_idle", "cpu_stolen",
        "cpu_wait", "cpu_busy"]) ∧
    (∀ m, getHostNetworkUsage h env = Except.ok m →
      m.map Prod.fst = ["netrx", "nettx"]) := by
  refine ⟨?_, ?_, ?_, ?_, ?_, ?_, ?_⟩
  · intro m hm
    cases hl : env.loadAvg with
    | error e => simp [getHostLoad, hl] at hm
    | ok la =>
        simp [getHostLoad, hl] at hm
        subst hm
        simp [loadStats]
  · intro m hm
    cases hl : env.virtualMemory with
    | error e => simp [getHostMem, hl] at hm
    | ok vm =>
        simp [getHostMem, hl] at hm
        subst hm
        simp [memStats]
  · intro m hm
    cases hl : env.swapMemory with
    | error e => simp [getHostSwap, hl] at hm
    | ok sm =>
        simp [getHostSwap, hl] at hm
        subst hm
        simp [swapStats]
  · intro m hm
    cases hl : env.diskUsage with
    | error e => simp [getHostFileSystemUsage, hl] at hm
    | ok du =>
        simp [getHostFileSystemUsage, hl] at hm
        subst hm
        simp [diskStats]
  · intro m hm
    cases hl : env.uptime with
    | error e => simp [getHostUptime, hl] at hm
    | ok up =>
        simp [getHostUptime, hl] at hm
        subst hm
        simp [uptimeStats]
  · intro m h2 hm
    cases hl : env.cpuTimes with
    | error e => simp [getHostCpuTimes, hl] at hm
    | ok cs =>
        simp [getHostCpuTimes, hl] at hm
        obtain ⟨hm1, hm2⟩ := hm
        subst hm1
        exact calculateCpuPercent_keys _ _
  · intro m hm
    cases hl : env.netIOCounters with
    | error e => simp [getHostNetworkUsage, hl] at hm
    | ok ns =>
        simp only [getHostNetworkUsage, hl] at hm
        exact findIfaceStats_ok_keys _ _ _ hm

/-- C9 witness: one concrete successful reading of each producer, each
yielding exactly its documented keys. -/
theorem c9_key_stability_witness :
    (loadStats ⟨1, 2, 3⟩).map Prod.fst = ["load1", "load5", "load15"] ∧
    (memStats ⟨4, 5, 6⟩).map Prod.fst = ["mem_total", "mem_used", "mem_free"] ∧
    (swapStats ⟨7, 8, 9⟩).map Prod.fst =
      ["swap_total", "swap_used", "swap_free"] ∧
    (diskStats ⟨10, 11, 12⟩).map Prod.fst =
      ["disk_total", "disk_used", "disk_free"] ∧
    (uptimeStats 13).map Prod.fst = ["uptime"] ∧
    (calculateCpuPercent none ⟨1, 1, 1, 0, 0, 0⟩).map Prod.fst =
      ["cpu_user", "cpu_sys", "cpu_idle", "cpu_stolen", "cpu_wait",
       "cpu_busy"] ∧
    (netStats ⟨"eth0", 100, 200⟩).map Prod.fst = ["netrx", "nettx"] := by
  have H := c9_key_stability ⟨"eth0", none⟩
    ⟨Except.ok ⟨1, 2, 3⟩, Except.ok ⟨4, 5, 6⟩, Except.ok ⟨7, 8, 9⟩,
     Except.ok ⟨10, 11, 12⟩, Except.ok 13, Except.ok ⟨1, 1, 1, 0, 0, 0⟩,
     Except.ok [⟨"eth0", 100, 200⟩]⟩
  exact ⟨H.1 _ rfl, H.2.1 _ rfl, H.2.2.1 _ rfl, H.2.2.2.1 _ rfl,
    H.2.2.2.2.1 _ rfl, H.2.2.2.2.2.1 _ _ rfl,
    H.2.2.2.2.2.2 _ (by simp [getHostNetworkUsage, findIfaceStats])⟩

/-- C10: with the interface list read successfully, the network producer
returns the byte counters of the FIRST interface whose name matches the
configured one (later duplicates are ignored), and it returns the
not-found error exactly when no interface in the list matches. -/
theorem c10_first_match (h : HostClient) (env : Env) :
    (∀ pre i post, env.netIOCounters = Except.ok (pre ++ i :: post) →
      (∀ j ∈ pre, j.name ≠ h.ifaceName) → i.name = h.ifaceName →
      getHostNetworkUsage h env =
        Except.ok [("netrx", FVal.fin i.bytesRecv),
          ("nettx", FVal.fin i.bytesSent)]) ∧
    (∀ ns, env.netIOCounters = Except.ok ns →
      (getHostNetworkUsage h env =
          Except.error (MErr.interfaceNotFound h.ifaceName) ↔
        ∀ j ∈ ns, j.name ≠ h.ifaceName)) := by
  constructor
  · intro pre i post hok hpre hi
    simp only [getHostNetworkUsage, hok,
      findIfaceStats_prefix h.ifaceName pre i post hpre hi, netStats]
  · intro ns hok
    constructor
    · intro he
      refine findIfaceStats_error_imp h.ifaceName ns ?_
      simpa only [getHostNetworkUsage, hok] using he
    · intro hne
      simp only [getHostNetworkUsage, hok,
        findIfaceStats_not_found h.ifaceName ns hne]

/-- C10 witness: two interfaces named eth0 in the list; the producer
returns the first one's counters. -/
theorem c10_first_match_witness :
    getHostNetworkUsage ⟨"eth0", none⟩
      ⟨Except.error "", Except.error "", Except.error "", Except.error "",
       Except.error "", Except.error "",
       Except.ok [⟨"lo", 1, 2⟩, ⟨"eth0", 10, 20⟩, ⟨"eth0", 30, 40⟩]⟩ =
      Except.ok [("netrx", FVal.fin 20), ("nettx", FVal.fin 10)] :=
  (c10_first_match ⟨"eth0", none⟩
    ⟨Except.error "", Except.error "", Except.error "", Except.error "",
     Except.error "", Except.error "",
     Except.ok [⟨"lo", 1, 2⟩, ⟨"eth0", 10, 20⟩, ⟨"eth0", 30, 40⟩]⟩).1
    [⟨"lo", 1, 2⟩] ⟨"eth0", 10, 20⟩ [⟨"eth0", 30, 40⟩] rfl (by simp) rfl
